import Mathlib

/-!
Shallow embedding of the payment order lifecycle engine of the
Project-Management-API repository.

Sources embedded:
- `src/services/paymentService.js` (class `PaymentService`: `createOrder`,
  `verifyPayment`, `verifySignature`, `handlePaymentFailure`, `cancelPayment`,
  `handleWebhook`, `handlePaymentCaptured`, `handlePaymentFailedWebhook`,
  `handleOrderPaid`, plan catalog, `generateReceipt`).
- the Payment mongoose model (schema fields, `markCompleted`, `markFailed`,
  `markCancelled`).

Modelling conventions:
- The Mongo store is a `DB`: a list of payment documents and a list of user
  documents.  `Payment.findOne({razorpayOrderId})` is first-match search;
  `doc.save()` writes the document back.  A saved payment document is keyed by
  `razorpayOrderId`, which the schema declares unique and which no instance
  method ever rewrites, so it stands in for the immutable Mongo `_id` of the
  document; users are keyed by their id.
- `async` methods that `throw` are functions returning the new store state
  paired with `Except String result`; the error strings are the exact
  wrapped messages the JS code throws.  Returning an error together with a
  state captures paths (such as the invalid-signature branch of
  `verifyPayment`) that mutate the store and still throw.
- HMAC-SHA256 is kept abstract: the definitions take the hex digest function
  `hmac : secret -> message -> digest` as a parameter, since the claims are
  about how the service uses the digest, not about SHA-256 itself.
- The Razorpay SDK call `razorpay.orders.create` is a function parameter
  `ordersCreate`, and `Date.now().toString(36)` in `generateReceipt` is a
  timestamp-string parameter, both supplied by the environment.
-/

/-- Status enum of the payment schema:
`['pending', 'completed', 'failed', 'cancelled']`. -/
inductive PaymentStatus where
  | pending
  | completed
  | failed
  | cancelled
deriving DecidableEq, Repr

/-- A document of the Payment mongoose model (the fields the engine touches). -/
structure Payment where
  userId : String
  razorpayOrderId : String
  razorpayPaymentId : Option String := none
  razorpaySignature : Option String := none
  amount : Nat
  currency : String := "INR"
  status : PaymentStatus := PaymentStatus.pending
  planType : String
  description : String := ""
  notes : List (String × String) := []
  failureReason : Option String := none
  webhookEventId : Option String := none
deriving DecidableEq, Repr

/-- A document of the User model (the fields the payment engine touches). -/
structure User where
  id : String
  firstName : String
  lastName : String
  email : String
  isPremium : Bool
deriving DecidableEq, Repr

/-- The persistent store: payment documents and user documents. -/
structure DB where
  payments : List Payment
  users : List User
deriving DecidableEq, Repr

/-- `Payment.findOne({ razorpayOrderId: orderId })`. -/
def findPayment (db : DB) (orderId : String) : Option Payment :=
  db.payments.find? (fun p => p.razorpayOrderId == orderId)

/-- `doc.save()` on an existing payment document: write the document back in
place.  The document is identified by `razorpayOrderId` (unique, never
rewritten by any instance method; see the modelling conventions above). -/
def savePayment (db : DB) (p : Payment) : DB :=
  { db with
    payments := db.payments.map
      (fun q => if q.razorpayOrderId == p.razorpayOrderId then p else q) }

/-- `User.findById(userId)`. -/
def findUser (users : List User) (userId : String) : Option User :=
  users.find? (fun u => u.id == userId)

/-- `user.save()` on an existing user document, keyed by its id. -/
def saveUser (users : List User) (u : User) : List User :=
  users.map (fun v => if v.id == u.id then u else v)

/-- `payment.markCompleted(paymentId, signature)` from the Payment model:
sets status to completed and stores the gateway payment id and signature
(the webhook path passes `null` for the signature, hence the `Option`). -/
def markCompleted (p : Payment) (paymentId : String) (signature : Option String) : Payment :=
  { p with
    status := PaymentStatus.completed
    razorpayPaymentId := some paymentId
    razorpaySignature := signature }

/-- `payment.markFailed(reason)` from the Payment model. -/
def markFailed (p : Payment) (reason : String) : Payment :=
  { p with status := PaymentStatus.failed, failureReason := some reason }

/-- `payment.markCancelled()` from the Payment model. -/
def markCancelled (p : Payment) : Payment :=
  { p with status := PaymentStatus.cancelled }

/-- Plan catalog entry, as in the `PaymentService` constructor. -/
structure Plan where
  amount : Nat
  currency : String
  description : String
  duration : Nat
deriving DecidableEq, Repr

/-- The `this.plans` catalog from the `PaymentService` constructor. -/
def plans : List (String × Plan) :=
  [("premium_monthly", { amount := 99900, currency := "INR",
                         description := "Premium Monthly Subscription", duration := 30 }),
   ("premium_yearly", { amount := 999900, currency := "INR",
                        description := "Premium Yearly Subscription", duration := 365 })]

/-- `this.plans[planType]` lookup. -/
def plansLookup (planType : String) : Option Plan :=
  (plans.find? (fun kv => kv.1 == planType)).map (fun kv => kv.2)

/-- `verifySignature(orderId, paymentId, signature)`: joins the two ids with
a literal bar, takes the hex HMAC-SHA256 digest under the key secret and
compares with the supplied signature.  Total by construction (the JS
try/catch maps any internal error to `false`). -/
def verifySignature (hmac : String → String → String) (keySecret : String)
    (orderId paymentId signature : String) : Bool :=
  let body := orderId ++ "|" ++ paymentId
  let expectedSignature := hmac keySecret body
  expectedSignature == signature

/-- Result shape of a successful `verifyPayment`. -/
structure VerifyResult where
  success : Bool
  paymentId : String
  orderId : String
  planType : String
  amount : Nat
  currency : String
deriving DecidableEq, Repr

/-- `verifyPayment(paymentData)`: look up the record by gateway order id,
check the signature; on a bad signature mark the record failed and throw;
on a good signature mark it completed, flip the owning user's premium flag
when the user exists, and return the public fields. -/
def verifyPayment (hmac : String → String → String) (keySecret : String) (db : DB)
    (razorpay_order_id razorpay_payment_id razorpay_signature : String) :
    DB × Except String VerifyResult :=
  match findPayment db razorpay_order_id with
  | none => (db, Except.error "Payment verification failed: Payment record not found")
  | some payment =>
    if verifySignature hmac keySecret razorpay_order_id razorpay_payment_id razorpay_signature then
      let payment2 := markCompleted payment razorpay_payment_id (some razorpay_signature)
      let db2 := savePayment db payment2
      let db3 :=
        match findUser db2.users payment2.userId with
        | some user => { db2 with users := saveUser db2.users { user with isPremium := true } }
        | none => db2
      (db3, Except.ok
        { success := true
          paymentId := razorpay_payment_id
          orderId := razorpay_order_id
          planType := payment2.planType
          amount := payment2.amount
          currency := payment2.currency })
    else
      (savePayment db (markFailed payment "Invalid payment signature"),
       Except.error "Payment verification failed: Payment verification failed")

/-- `handlePaymentFailure(orderId, reason)`. -/
def handlePaymentFailure (db : DB) (orderId reason : String) :
    DB × Except String Payment :=
  match findPayment db orderId with
  | none => (db, Except.error "Failed to handle payment failure: Payment record not found")
  | some payment =>
    let p2 := markFailed payment reason
    (savePayment db p2, Except.ok p2)

/-- `cancelPayment(orderId, userId)`: the query itself restricts to the
caller's own still-pending record. -/
def cancelPayment (db : DB) (orderId userId : String) :
    DB × Except String Payment :=
  match db.payments.find?
      (fun p => p.razorpayOrderId == orderId && p.userId == userId
        && p.status == PaymentStatus.pending) with
  | none => (db, Except.error "Failed to cancel payment: Pending payment not found")
  | some payment =>
    let p2 := markCancelled payment
    (savePayment db p2, Except.ok p2)

/-- `payload.payment.entity` of a Razorpay webhook. -/
structure PaymentEntity where
  id : String
  order_id : String
  error_description : Option String := none
deriving DecidableEq, Repr

/-- `payload.order.entity` of a Razorpay webhook. -/
structure OrderEntity where
  id : String
deriving DecidableEq, Repr

/-- The `payload` member of the webhook envelope; each entity is present
only for the event families that carry it. -/
structure WebhookPayload where
  payment : Option PaymentEntity := none
  order : Option OrderEntity := none
deriving DecidableEq, Repr

/-- The webhook event envelope `{ event, payload }`. -/
structure WebhookEvent where
  event : String
  payload : WebhookPayload
deriving DecidableEq, Repr

/-- Result shape of the webhook handlers. -/
structure WebhookResult where
  processed : Bool
  event : Option String := none
  paymentId : Option String := none
  orderId : Option String := none
deriving DecidableEq, Repr

/-- `handlePaymentCaptured(paymentEntity)`: only a record still pending is
completed; the premium flag is flipped only when the user exists and is not
premium yet; the handler acknowledges in every case. -/
def handlePaymentCaptured (db : DB) (paymentEntity : PaymentEntity) :
    DB × Except String WebhookResult :=
  match findPayment db paymentEntity.order_id with
  | some payment =>
    if payment.status == PaymentStatus.pending then
      let db2 := savePayment db (markCompleted payment paymentEntity.id none)
      let db3 :=
        match findUser db2.users payment.userId with
        | some user =>
          if !user.isPremium then
            { db2 with users := saveUser db2.users { user with isPremium := true } }
          else db2
        | none => db2
      (db3, Except.ok { processed := true, paymentId := some paymentEntity.id })
    else
      (db, Except.ok { processed := true, paymentId := some paymentEntity.id })
  | none => (db, Except.ok { processed := true, paymentId := some paymentEntity.id })

/-- `paymentEntity.error_description || 'Payment failed'` (JS falsy: both a
missing field and an empty string fall back). -/
def errorDescriptionOrDefault (e : PaymentEntity) : String :=
  match e.error_description with
  | some d => if d == "" then "Payment failed" else d
  | none => "Payment failed"

/-- `handlePaymentFailedWebhook(paymentEntity)`. -/
def handlePaymentFailedWebhook (db : DB) (paymentEntity : PaymentEntity) :
    DB × Except String WebhookResult :=
  match findPayment db paymentEntity.order_id with
  | some payment =>
    if payment.status == PaymentStatus.pending then
      (savePayment db (markFailed payment (errorDescriptionOrDefault paymentEntity)),
       Except.ok { processed := true, paymentId := some paymentEntity.id })
    else
      (db, Except.ok { processed := true, paymentId := some paymentEntity.id })
  | none => (db, Except.ok { processed := true, paymentId := some paymentEntity.id })

/-- `handleOrderPaid(orderEntity)`: records the event id on the matching
order without changing its status. -/
def handleOrderPaid (db : DB) (orderEntity : OrderEntity) :
    DB × Except String WebhookResult :=
  match findPayment db orderEntity.id with
  | some payment =>
    (savePayment db { payment with webhookEventId := some orderEntity.id },
     Except.ok { processed := true, orderId := some orderEntity.id })
  | none => (db, Except.ok { processed := true, orderId := some orderEntity.id })

/-- `handleWebhook(event, signature)`: dispatch on the event type string.
The commented-out webhook-signature check of the source is absent here as
it is absent there.  Accessing a missing payload member in JS raises a
TypeError that the wrapper rethrows; that path is the `Except.error` arm. -/
def handleWebhook (db : DB) (event : WebhookEvent) :
    DB × Except String WebhookResult :=
  let eventType := event.event
  if eventType == "payment.captured" then
    match event.payload.payment with
    | some e => handlePaymentCaptured db e
    | none => (db, Except.error "Webhook processing failed: cannot read payload.payment.entity")
  else if eventType == "payment.failed" then
    match event.payload.payment with
    | some e => handlePaymentFailedWebhook db e
    | none => (db, Except.error "Webhook processing failed: cannot read payload.payment.entity")
  else if eventType == "order.paid" then
    match event.payload.order with
    | some e => handleOrderPaid db e
    | none => (db, Except.error "Webhook processing failed: cannot read payload.order.entity")
  else
    (db, Except.ok { processed := false, event := some eventType })

/-- `generateReceipt(userId)`: `r_` + last 8 characters of the user id + a
compact timestamp, truncated to 40 characters.  The timestamp string is an
environment input. -/
def generateReceipt (userId : String) (ts : String) : String :=
  let uid := (String.mk (userId.toList.drop (userId.toList.length - 8)))
  let receipt := "r_" ++ uid ++ "_" ++ ts
  if receipt.length > 40 then String.mk (receipt.toList.take 40) else receipt

/-- The options object handed to `razorpay.orders.create`. -/
structure OrderOptions where
  amount : Nat
  currency : String
  receipt : String
  notes : List (String × String)
deriving DecidableEq, Repr

/-- The order minted by the gateway. -/
structure GatewayOrder where
  id : String
  amount : Nat
  currency : String
deriving DecidableEq, Repr

/-- Result shape of a successful `createOrder`. -/
structure OrderResult where
  orderId : String
  amount : Nat
  currency : String
  planType : String
  description : String
  keyId : String
  userName : String
  userEmail : String
deriving DecidableEq, Repr

/-- `payment.save()` on a brand-new document: the unique index on
`razorpayOrderId` makes the insert fail on a duplicate key. -/
def insertPayment (db : DB) (p : Payment) : Except String DB :=
  if db.payments.any (fun q => q.razorpayOrderId == p.razorpayOrderId) then
    Except.error "duplicate key error on razorpayOrderId"
  else
    Except.ok { db with payments := db.payments ++ [p] }

/-- `createOrder(userId, planType)`: credential check, plan check, user
eligibility checks, gateway order creation, then persistence of one new
pending record.  Every thrown message is wrapped by the outer catch. -/
def createOrder (ordersCreate : OrderOptions → Except String GatewayOrder)
    (keyId keySecret : String) (db : DB) (userId planType ts : String) :
    DB × Except String OrderResult :=
  if keyId == "" || keySecret == "" then
    (db, Except.error "Failed to create order: Razorpay credentials are missing. Set RAZORPAY_KEY_ID and RAZORPAY_KEY_SECRET.")
  else
    match plansLookup planType with
    | none => (db, Except.error "Failed to create order: Invalid plan type")
    | some plan =>
      match findUser db.users userId with
      | none => (db, Except.error "Failed to create order: User not found")
      | some user =>
        if user.isPremium then
          (db, Except.error "Failed to create order: User is already premium")
        else
          let notes := [("userId", userId), ("planType", planType),
                        ("userEmail", user.email),
                        ("userName", (user.firstName ++ " " ++ user.lastName).trim)]
          let orderOptions : OrderOptions :=
            { amount := plan.amount, currency := plan.currency,
              receipt := generateReceipt userId ts, notes := notes }
          match ordersCreate orderOptions with
          | Except.error e => (db, Except.error ("Failed to create order: " ++ e))
          | Except.ok razorpayOrder =>
            let payment : Payment :=
              { userId := userId
                razorpayOrderId := razorpayOrder.id
                amount := plan.amount
                currency := plan.currency
                planType := planType
                description := plan.description
                status := PaymentStatus.pending
                notes := notes }
            match insertPayment db payment with
            | Except.error e => (db, Except.error ("Failed to create order: " ++ e))
            | Except.ok db2 =>
              (db2, Except.ok
                { orderId := razorpayOrder.id
                  amount := razorpayOrder.amount
                  currency := razorpayOrder.currency
                  planType := planType
                  description := plan.description
                  keyId := keyId
                  userName := user.firstName ++ " " ++ user.lastName
                  userEmail := user.email })

/-- Observation: the status of the first record carrying a given gateway
order id. -/
def statusOf (db : DB) (orderId : String) : Option PaymentStatus :=
  (findPayment db orderId).map Payment.status

/-!
Shared lemmas about first-match search and write-back on keyed document
lists.  `key` abstracts the identifying field (`razorpayOrderId` for
payments, `id` for users); write-back replaces the documents carrying the
written document's key.
-/

/-- The element returned by a key search carries the searched key. -/
theorem key_of_find {α : Type} (key : α → String) (xs : List α) (o : String) (x : α)
    (h : xs.find? (fun q => key q == o) = some x) : key x = o := by
  have hp := List.find?_some h
  simpa using hp

/-- After writing back a document whose key is the searched key, the search
finds exactly the written document. -/
theorem find_after_replace {α : Type} (key : α → String) (xs : List α) (o : String) (x y : α)
    (h : xs.find? (fun q => key q == o) = some x) (hy : key y = o) :
    (xs.map (fun q => if key q == key y then y else q)).find? (fun q => key q == o) = some y := by
  induction xs with
  | nil => simp at h
  | cons a tl ih =>
    by_cases ha : key a = o
    · simp [List.find?_cons, ha, hy]
    · have ha2 : (key a == o) = false := by simpa using ha
      have htl : tl.find? (fun q => key q == o) = some x := by
        simpa [List.find?_cons, ha2] using h
      have hhead : (if key a == key y then y else a) = a := by
        have : key a ≠ key y := by rw [hy]; exact ha
        simp [this]
      simp only [List.map_cons, hhead, List.find?_cons, ha2]
      exact ih htl

/-- Write-back of a document whose key occurs nowhere touches nothing. -/
theorem replace_absent {α : Type} (key : α → String) (xs : List α) (y : α)
    (h : ∀ q ∈ xs, key q ≠ key y) :
    xs.map (fun q => if key q == key y then y else q) = xs := by
  induction xs with
  | nil => rfl
  | cons a tl ih =>
    have ha : (key a == key y) = false := by
      simpa using h a (List.mem_cons_self a tl)
    have htl := ih (fun q hq => h q (List.mem_cons_of_mem a hq))
    simp only [List.map_cons, ha, Bool.false_eq_true, if_false, htl]

/-- Writing back the very document the search returns is a no-op when keys
are duplicate-free. -/
theorem replace_self_eq {α : Type} (key : α → String) (xs : List α) (x : α)
    (hnd : (xs.map key).Nodup)
    (h : xs.find? (fun q => key q == key x) = some x) :
    xs.map (fun q => if key q == key x then x else q) = xs := by
  induction xs with
  | nil => rfl
  | cons a tl ih =>
    by_cases ha : key a = key x
    · have hax : a = x := by
        have : some a = some x := by simpa [List.find?_cons, ha] using h
        exact Option.some.inj this
      have habsent : ∀ q ∈ tl, key q ≠ key x := by
        intro q hq
        have hnotin : key a ∉ tl.map key := (List.nodup_cons.mp (by simpa using hnd)).1
        intro hcontra
        exact hnotin (by rw [ha, ← hcontra]; exact List.mem_map_of_mem key hq)
      have hhead : (if key a == key x then x else a) = a := by
        simp [ha, hax]
      rw [List.map_cons, hhead, replace_absent key tl x habsent]
    · have ha2 : (key a == key x) = false := by simpa using ha
      have htl : tl.find? (fun q => key q == key x) = some x := by
        simpa [List.find?_cons, ha2] using h
      have hndtl : (tl.map key).Nodup := (List.nodup_cons.mp (by simpa using hnd)).2
      have hhead : (if key a == key x then x else a) = a := by
        simp [ha2]
      rw [List.map_cons, hhead, ih hndtl htl]

/-- Write-back never changes the list of keys, position by position. -/
theorem map_key_replace {α : Type} (key : α → String) (xs : List α) (y : α) :
    (xs.map (fun q => if key q == key y then y else q)).map key = xs.map key := by
  induction xs with
  | nil => rfl
  | cons a tl ih =>
    have hhead : key (if key a == key y then y else a) = key a := by
      by_cases ha : key a = key y
      · simp [ha]
      · simp [ha]
    simp only [List.map_cons]
    rw [hhead, ih]

/-- With duplicate-free keys, any member carrying the searched key is the
document the search returned. -/
theorem find_unique_match {α : Type} (key : α → String) (xs : List α) (o : String) (x : α)
    (hnd : (xs.map key).Nodup) (h : xs.find? (fun q => key q == o) = some x) :
    ∀ q ∈ xs, key q = o → q = x := by
  induction xs with
  | nil => intro q hq; simp at hq
  | cons a tl ih =>
    intro q hq hkq
    by_cases ha : key a = o
    · have hax : a = x := by
        have : some a = some x := by simpa [List.find?_cons, ha] using h
        exact Option.some.inj this
      rcases List.mem_cons.mp hq with hqa | hqtl
      · rw [hqa, hax]
      · exfalso
        have hnotin : key a ∉ tl.map key := (List.nodup_cons.mp (by simpa using hnd)).1
        exact hnotin (by rw [ha, ← hkq]; exact List.mem_map_of_mem key hqtl)
    · have ha2 : (key a == o) = false := by simpa using ha
      have htl : tl.find? (fun q => key q == o) = some x := by
        simpa [List.find?_cons, ha2] using h
      have hndtl : (tl.map key).Nodup := (List.nodup_cons.mp (by simpa using hnd)).2
      rcases List.mem_cons.mp hq with hqa | hqtl
      · exact absurd (hqa ▸ hkq) ha
      · exact ih hndtl htl q hqtl hkq

/-- `findPayment` after `savePayment` of a document carrying the searched
order id finds the written document. -/
theorem findPayment_savePayment {db : DB} {o : String} {x y : Payment}
    (h : findPayment db o = some x) (hy : y.razorpayOrderId = o) :
    findPayment (savePayment db y) o = some y := by
  unfold findPayment at h
  unfold findPayment savePayment
  exact find_after_replace (fun p : Payment => p.razorpayOrderId) db.payments o x y h hy

/-- `savePayment` of the found document is a no-op under unique order ids. -/
theorem savePayment_self {db : DB} {p : Payment}
    (hnd : (db.payments.map Payment.razorpayOrderId).Nodup)
    (h : findPayment db p.razorpayOrderId = some p) :
    savePayment db p = db := by
  unfold savePayment
  have h2 := h
  unfold findPayment at h2
  rw [replace_self_eq (fun q : Payment => q.razorpayOrderId) db.payments p hnd h2]

/-- `savePayment` preserves the order-id column. -/
theorem savePayment_keys (db : DB) (p : Payment) :
    (savePayment db p).payments.map Payment.razorpayOrderId
      = db.payments.map Payment.razorpayOrderId :=
  map_key_replace (fun q : Payment => q.razorpayOrderId) db.payments p

/-- `findUser` after `saveUser` of a document carrying the searched id. -/
theorem findUser_saveUser {users : List User} {uid : String} {x y : User}
    (h : findUser users uid = some x) (hy : y.id = uid) :
    findUser (saveUser users y) uid = some y := by
  unfold findUser at h
  unfold findUser saveUser
  exact find_after_replace (fun u : User => u.id) users uid x y h hy

/-- `saveUser` of the found document is a no-op under unique user ids. -/
theorem saveUser_self {users : List User} {u : User}
    (hnd : (users.map User.id).Nodup)
    (h : findUser users u.id = some u) :
    saveUser users u = users := by
  unfold saveUser
  have h2 := h
  unfold findUser at h2
  exact replace_self_eq (fun v : User => v.id) users u hnd h2

/-- `saveUser` preserves the id column. -/
theorem saveUser_keys (users : List User) (u : User) :
    (saveUser users u).map User.id = users.map User.id :=
  map_key_replace (fun v : User => v.id) users u

/-!
Concrete fixtures used by witnesses and counterexamples: a stand-in hex
digest function, one user, and single-record stores in each status.
-/

/-- Stand-in for the hex HMAC digest in concrete evaluations. -/
def exHmac (secret message : String) : String :=
  "h:" ++ secret ++ ":" ++ message

def exUser1 : User :=
  { id := "u1", firstName := "Ada", lastName := "L", email := "ada@x.com",
    isPremium := false }

def exUserPremium : User :=
  { id := "u2", firstName := "Bob", lastName := "M", email := "bob@x.com",
    isPremium := true }

def exPayPending : Payment :=
  { userId := "u1", razorpayOrderId := "order_1", amount := 99900,
    currency := "INR", status := PaymentStatus.pending,
    planType := "premium_monthly",
    description := "Premium Monthly Subscription" }

def exPayFailed : Payment :=
  { exPayPending with status := PaymentStatus.failed }

def exPayCompleted : Payment :=
  { exPayPending with
    status := PaymentStatus.completed,
    razorpayPaymentId := some "pay_1",
    razorpaySignature := some (exHmac "sec" ("order_1" ++ "|" ++ "pay_1")) }

def exDbPending : DB := { payments := [exPayPending], users := [exUser1] }

def exDbFailed : DB := { payments := [exPayFailed], users := [exUser1] }

def exDbCompleted : DB := { payments := [exPayCompleted], users := [exUser1] }

/-- C4: for every orderId, paymentId, signature and secret, verifySignature
returns true exactly when the signature equals the hex HMAC-SHA256 digest of
orderId and paymentId joined by a bar under the secret; the embedded
function is total, mirroring the fail-closed try/catch of the source. -/
theorem verifySignature_correct (hmac : String → String → String)
    (keySecret orderId paymentId signature : String) :
    verifySignature hmac keySecret orderId paymentId signature = true ↔
      signature = hmac keySecret (orderId ++ "|" ++ paymentId) := by
  unfold verifySignature
  constructor
  · intro h
    exact (eq_of_beq h).symm
  · intro h
    simp [h]

/-- C9: a webhook envelope whose event type is none of the three recognized
ones is acknowledged with processed false, raises no error, and leaves the
store untouched. -/
theorem handleWebhook_unknown_event (db : DB) (ev : WebhookEvent)
    (h1 : ev.event ≠ "payment.captured") (h2 : ev.event ≠ "payment.failed")
    (h3 : ev.event ≠ "order.paid") :
    handleWebhook db ev =
      (db, Except.ok { processed := false, event := some ev.event }) := by
  unfold handleWebhook
  simp [h1, h2, h3]

/-- Witness for C9 at a concrete store and refund event. -/
theorem handleWebhook_unknown_event_witness :
    handleWebhook exDbPending { event := "refund.created", payload := {} } =
      (exDbPending, Except.ok { processed := false, event := some "refund.created" }) :=
  handleWebhook_unknown_event exDbPending
    { event := "refund.created", payload := {} }
    (by decide) (by decide) (by decide)

/-- Bridge: `key_of_find` stated for `findPayment`. -/
theorem findPayment_key {db : DB} {o : String} {payment : Payment}
    (hfind : findPayment db o = some payment) : payment.razorpayOrderId = o := by
  have h2 := hfind
  unfold findPayment at h2
  exact key_of_find (fun q : Payment => q.razorpayOrderId) db.payments o payment h2

/-- Bridge: `key_of_find` stated for `findUser`. -/
theorem findUser_key {users : List User} {uid : String} {u : User}
    (hfind : findUser users uid = some u) : u.id = uid := by
  have h2 := hfind
  unfold findUser at h2
  exact key_of_find (fun v : User => v.id) users uid u h2

/-- C2: verifyPayment with a signature that is not the valid one for the
stored record both reports the verification failure to the caller and
durably transitions the record to failed with reason
"Invalid payment signature". -/
theorem verifyPayment_invalid_signature (hmac : String → String → String)
    (keySecret : String) (db : DB) (o p s : String) (payment : Payment)
    (hfind : findPayment db o = some payment)
    (hsig : verifySignature hmac keySecret o p s = false) :
    (verifyPayment hmac keySecret db o p s).2 =
      Except.error "Payment verification failed: Payment verification failed" ∧
    findPayment (verifyPayment hmac keySecret db o p s).1 o =
      some (markFailed payment "Invalid payment signature") ∧
    (markFailed payment "Invalid payment signature").status = PaymentStatus.failed ∧
    (markFailed payment "Invalid payment signature").failureReason =
      some "Invalid payment signature" := by
  have hkey : payment.razorpayOrderId = o := findPayment_key hfind
  have heq : verifyPayment hmac keySecret db o p s =
      (savePayment db (markFailed payment "Invalid payment signature"),
       Except.error "Payment verification failed: Payment verification failed") := by
    unfold verifyPayment
    rw [hfind]
    simp [hsig]
  refine ⟨by rw [heq], ?_, rfl, rfl⟩
  rw [heq]
  exact findPayment_savePayment hfind hkey

/-- Witness for C2 at a concrete pending record and wrong signature. -/
theorem verifyPayment_invalid_signature_witness :
    (verifyPayment exHmac "sec" exDbPending "order_1" "pay_1" "bad").2 =
      Except.error "Payment verification failed: Payment verification failed" ∧
    findPayment (verifyPayment exHmac "sec" exDbPending "order_1" "pay_1" "bad").1 "order_1" =
      some (markFailed exPayPending "Invalid payment signature") ∧
    (markFailed exPayPending "Invalid payment signature").status = PaymentStatus.failed ∧
    (markFailed exPayPending "Invalid payment signature").failureReason =
      some "Invalid payment signature" :=
  verifyPayment_invalid_signature exHmac "sec" exDbPending "order_1" "pay_1" "bad"
    exPayPending (by decide) (by decide)

/-- C10: when the record exists but its owning user does not, a
valid-signature verifyPayment still completes the record and returns a
success result; the premium flip is silently skipped and the user
collection is untouched. -/
theorem verifyPayment_missing_user (hmac : String → String → String)
    (keySecret : String) (db : DB) (o p s : String) (payment : Payment)
    (hfind : findPayment db o = some payment)
    (hsig : verifySignature hmac keySecret o p s = true)
    (huser : findUser db.users payment.userId = none) :
    (verifyPayment hmac keySecret db o p s).2 =
      Except.ok { success := true, paymentId := p, orderId := o,
                  planType := payment.planType, amount := payment.amount,
                  currency := payment.currency } ∧
    (verifyPayment hmac keySecret db o p s).1.users = db.users ∧
    findPayment (verifyPayment hmac keySecret db o p s).1 o =
      some (markCompleted payment p (some s)) ∧
    (markCompleted payment p (some s)).status = PaymentStatus.completed := by
  have hkey : payment.razorpayOrderId = o := findPayment_key hfind
  have heq : verifyPayment hmac keySecret db o p s =
      (savePayment db (markCompleted payment p (some s)),
       Except.ok { success := true, paymentId := p, orderId := o,
                   planType := payment.planType, amount := payment.amount,
                   currency := payment.currency }) := by
    unfold verifyPayment
    rw [hfind]
    simp [hsig, huser, markCompleted, savePayment]
  refine ⟨by rw [heq], by rw [heq]; rfl, ?_, rfl⟩
  rw [heq]
  exact findPayment_savePayment hfind hkey

def exPayOrphan : Payment :=
  { exPayPending with userId := "ghost" }

def exDbOrphan : DB := { payments := [exPayOrphan], users := [exUser1] }

/-- Witness for C10: the pending record references user id ghost, which the
user collection does not contain. -/
theorem verifyPayment_missing_user_witness :
    (verifyPayment exHmac "sec" exDbOrphan "order_1" "pay_1"
        (exHmac "sec" ("order_1" ++ "|" ++ "pay_1"))).2 =
      Except.ok { success := true, paymentId := "pay_1", orderId := "order_1",
                  planType := exPayOrphan.planType, amount := exPayOrphan.amount,
                  currency := exPayOrphan.currency } ∧
    (verifyPayment exHmac "sec" exDbOrphan "order_1" "pay_1"
        (exHmac "sec" ("order_1" ++ "|" ++ "pay_1"))).1.users = exDbOrphan.users ∧
    findPayment (verifyPayment exHmac "sec" exDbOrphan "order_1" "pay_1"
        (exHmac "sec" ("order_1" ++ "|" ++ "pay_1"))).1 "order_1" =
      some (markCompleted exPayOrphan "pay_1"
        (some (exHmac "sec" ("order_1" ++ "|" ++ "pay_1")))) ∧
    (markCompleted exPayOrphan "pay_1"
        (some (exHmac "sec" ("order_1" ++ "|" ++ "pay_1")))).status =
      PaymentStatus.completed :=
  verifyPayment_missing_user exHmac "sec" exDbOrphan "order_1" "pay_1"
    (exHmac "sec" ("order_1" ++ "|" ++ "pay_1")) exPayOrphan
    (by decide) (by decide) (by decide)

/-- Characterization of the valid-signature branch of `verifyPayment`. -/
theorem verifyPayment_success_eq (hmac : String → String → String)
    (keySecret : String) (db : DB) (o p s : String) (payment : Payment)
    (hfind : findPayment db o = some payment)
    (hsig : verifySignature hmac keySecret o p s = true) :
    verifyPayment hmac keySecret db o p s =
      ((match findUser db.users payment.userId with
        | some user =>
          { savePayment db (markCompleted payment p (some s)) with
            users := saveUser db.users { user with isPremium := true } }
        | none => savePayment db (markCompleted payment p (some s))),
       Except.ok { success := true, paymentId := p, orderId := o,
                   planType := payment.planType, amount := payment.amount,
                   currency := payment.currency }) := by
  unfold verifyPayment
  rw [hfind]
  simp only [hsig, if_true]
  cases hu : findUser db.users payment.userId with
  | none =>
    simp only [savePayment, markCompleted] at hu ⊢
    rw [hu]
  | some user =>
    simp only [savePayment, markCompleted] at hu ⊢
    rw [hu]

/-- C3: a valid-signature verifyPayment transitions the matching record to
completed with the payment id and signature persisted, sets the owning
user's premium flag true, and returns the record's public fields; with no
matching record it reports the record-not-found error and changes no
state. -/
theorem verifyPayment_valid_signature (hmac : String → String → String)
    (keySecret : String) (db : DB) (o p s : String) :
    (∀ payment, findPayment db o = some payment →
      verifySignature hmac keySecret o p s = true →
      (verifyPayment hmac keySecret db o p s).2 =
        Except.ok { success := true, paymentId := p, orderId := o,
                    planType := payment.planType, amount := payment.amount,
                    currency := payment.currency } ∧
      findPayment (verifyPayment hmac keySecret db o p s).1 o =
        some (markCompleted payment p (some s)) ∧
      (markCompleted payment p (some s)).status = PaymentStatus.completed ∧
      (markCompleted payment p (some s)).razorpayPaymentId = some p ∧
      (markCompleted payment p (some s)).razorpaySignature = some s ∧
      (∀ u, findUser db.users payment.userId = some u →
        findUser (verifyPayment hmac keySecret db o p s).1.users payment.userId =
          some { u with isPremium := true })) ∧
    (findPayment db o = none →
      verifyPayment hmac keySecret db o p s =
        (db, Except.error "Payment verification failed: Payment record not found")) := by
  constructor
  · intro payment hfind hsig
    have hkey : payment.razorpayOrderId = o := findPayment_key hfind
    have heq := verifyPayment_success_eq hmac keySecret db o p s payment hfind hsig
    refine ⟨by rw [heq], ?_, rfl, rfl, rfl, ?_⟩
    · rw [heq]
      cases hu : findUser db.users payment.userId with
      | none =>
        simp only [hu]
        exact findPayment_savePayment hfind hkey
      | some user =>
        simp only [hu]
        exact findPayment_savePayment hfind hkey
    · intro u hu
      rw [heq]
      simp only [hu]
      have hy0 : u.id = payment.userId := findUser_key hu
      have hy : ({ u with isPremium := true } : User).id = payment.userId := hy0
      exact findUser_saveUser (x := u) hu hy
  · intro hnone
    unfold verifyPayment
    rw [hnone]

/-- Witness for C3, covering both the success branch (concrete pending
record, correctly signed) and the not-found branch (empty store). -/
theorem verifyPayment_valid_signature_witness :
    ((verifyPayment exHmac "sec" exDbPending "order_1" "pay_1"
        (exHmac "sec" ("order_1" ++ "|" ++ "pay_1"))).2 =
      Except.ok { success := true, paymentId := "pay_1", orderId := "order_1",
                  planType := exPayPending.planType, amount := exPayPending.amount,
                  currency := exPayPending.currency } ∧
     findUser (verifyPayment exHmac "sec" exDbPending "order_1" "pay_1"
        (exHmac "sec" ("order_1" ++ "|" ++ "pay_1"))).1.users exPayPending.userId =
      some { exUser1 with isPremium := true }) ∧
    verifyPayment exHmac "sec" { payments := [], users := [] } "order_9" "pay_9" "sig" =
      ({ payments := [], users := [] },
       Except.error "Payment verification failed: Payment record not found") := by
  have h := verifyPayment_valid_signature exHmac "sec" exDbPending "order_1" "pay_1"
    (exHmac "sec" ("order_1" ++ "|" ++ "pay_1"))
  have hs := h.1 exPayPending (by decide) (by decide)
  have h2 := verifyPayment_valid_signature exHmac "sec"
    { payments := [], users := [] } "order_9" "pay_9" "sig"
  exact ⟨⟨hs.1, hs.2.2.2.2.2 exUser1 (by decide)⟩, h2.2 (by decide)⟩

/-- Dispatch: a payment.captured envelope carrying its payment entity is
routed to `handlePaymentCaptured`. -/
theorem handleWebhook_captured_eq (db : DB) (ev : WebhookEvent) (e : PaymentEntity)
    (hev : ev.event = "payment.captured") (hpl : ev.payload.payment = some e) :
    handleWebhook db ev = handlePaymentCaptured db e := by
  unfold handleWebhook
  simp [hev, hpl]

/-- Dispatch: a payment.failed envelope carrying its payment entity is
routed to `handlePaymentFailedWebhook`. -/
theorem handleWebhook_failed_eq (db : DB) (ev : WebhookEvent) (e : PaymentEntity)
    (hev : ev.event = "payment.failed") (hpl : ev.payload.payment = some e) :
    handleWebhook db ev = handlePaymentFailedWebhook db e := by
  unfold handleWebhook
  simp [hev, hpl]

/-- Dispatch: an order.paid envelope carrying its order entity is routed to
`handleOrderPaid`. -/
theorem handleWebhook_orderPaid_eq (db : DB) (ev : WebhookEvent) (e : OrderEntity)
    (hev : ev.event = "order.paid") (hpl : ev.payload.order = some e) :
    handleWebhook db ev = handleOrderPaid db e := by
  unfold handleWebhook
  simp [hev, hpl]

/-- Characterization of `handlePaymentCaptured` on a still-pending record. -/
theorem handlePaymentCaptured_pending_eq (db : DB) (e : PaymentEntity) (payment : Payment)
    (hfind : findPayment db e.order_id = some payment)
    (hpend : payment.status = PaymentStatus.pending) :
    handlePaymentCaptured db e =
      ((match findUser db.users payment.userId with
        | some user =>
          if !user.isPremium then
            { savePayment db (markCompleted payment e.id none) with
              users := saveUser db.users { user with isPremium := true } }
          else savePayment db (markCompleted payment e.id none)
        | none => savePayment db (markCompleted payment e.id none)),
       Except.ok { processed := true, paymentId := some e.id }) := by
  unfold handlePaymentCaptured
  rw [hfind]
  cases hu : findUser db.users payment.userId with
  | none =>
    simp [hpend, hu, savePayment, markCompleted]
  | some user =>
    simp [hpend, hu, savePayment, markCompleted]

/-- Characterization of `handlePaymentCaptured` away from a pending record:
an acknowledgement with no mutation. -/
theorem handlePaymentCaptured_skip_eq (db : DB) (e : PaymentEntity) :
    (∀ payment, findPayment db e.order_id = some payment →
      payment.status ≠ PaymentStatus.pending →
      handlePaymentCaptured db e =
        (db, Except.ok { processed := true, paymentId := some e.id })) ∧
    (findPayment db e.order_id = none →
      handlePaymentCaptured db e =
        (db, Except.ok { processed := true, paymentId := some e.id })) := by
  constructor
  · intro payment hfind hnp
    have hc : (payment.status == PaymentStatus.pending) = false := by
      simpa using hnp
    unfold handlePaymentCaptured
    rw [hfind]
    simp [hc]
  · intro hnone
    unfold handlePaymentCaptured
    rw [hnone]

/-- C5: handleWebhook on payment.captured looks up the record by the payload
order id; an existing pending record is completed and the owning user made
premium; an existing non-pending record, or no matching record, leaves the
store untouched while the handler still acknowledges with processed true. -/
theorem handleWebhook_payment_captured (db : DB) (ev : WebhookEvent) (e : PaymentEntity)
    (hev : ev.event = "payment.captured") (hpl : ev.payload.payment = some e) :
    (∀ payment, findPayment db e.order_id = some payment →
      payment.status = PaymentStatus.pending →
      (handleWebhook db ev).2 =
        Except.ok { processed := true, paymentId := some e.id } ∧
      findPayment (handleWebhook db ev).1 e.order_id =
        some (markCompleted payment e.id none) ∧
      (markCompleted payment e.id none).status = PaymentStatus.completed ∧
      (∀ u, findUser db.users payment.userId = some u →
        ∃ u2, findUser (handleWebhook db ev).1.users payment.userId = some u2 ∧
          u2.isPremium = true)) ∧
    (∀ payment, findPayment db e.order_id = some payment →
      payment.status ≠ PaymentStatus.pending →
      handleWebhook db ev = (db, Except.ok { processed := true, paymentId := some e.id })) ∧
    (findPayment db e.order_id = none →
      handleWebhook db ev = (db, Except.ok { processed := true, paymentId := some e.id })) := by
  rw [handleWebhook_captured_eq db ev e hev hpl]
  refine ⟨?_, (handlePaymentCaptured_skip_eq db e).1, (handlePaymentCaptured_skip_eq db e).2⟩
  intro payment hfind hpend
  have hkey : payment.razorpayOrderId = e.order_id := findPayment_key hfind
  have heq := handlePaymentCaptured_pending_eq db e payment hfind hpend
  refine ⟨by rw [heq], ?_, rfl, ?_⟩
  · rw [heq]
    cases hu : findUser db.users payment.userId with
    | none =>
      simp only [hu]
      exact findPayment_savePayment hfind hkey
    | some user =>
      simp only [hu]
      by_cases hpr : user.isPremium
      · simp only [hpr, Bool.not_true, Bool.false_eq_true, if_false]
        exact findPayment_savePayment hfind hkey
      · simp only [hpr]
        exact findPayment_savePayment hfind hkey
  · intro u hu
    rw [heq]
    simp only [hu]
    by_cases hpr : u.isPremium
    · refine ⟨u, ?_, hpr⟩
      simp only [hpr, Bool.not_true, Bool.false_eq_true, if_false]
      exact hu
    · refine ⟨{ u with isPremium := true }, ?_, rfl⟩
      simp only [hpr]
      have hy0 : u.id = payment.userId := findUser_key hu
      have hy : ({ u with isPremium := true } : User).id = payment.userId := hy0
      exact findUser_saveUser (x := u) hu hy

/-- Witness for C5: pending record completed by the captured event, premium
flag set; and the unmatched-order-id branch at an empty store. -/
theorem handleWebhook_payment_captured_witness :
    ((handleWebhook exDbPending
        { event := "payment.captured",
          payload := { payment := some { id := "pay_7", order_id := "order_1" } } }).2 =
      Except.ok { processed := true, paymentId := some "pay_7" } ∧
     findPayment (handleWebhook exDbPending
        { event := "payment.captured",
          payload := { payment := some { id := "pay_7", order_id := "order_1" } } }).1
        "order_1" = some (markCompleted exPayPending "pay_7" none)) ∧
    handleWebhook { payments := [], users := [] }
        { event := "payment.captured",
          payload := { payment := some { id := "pay_7", order_id := "order_9" } } } =
      ({ payments := [], users := [] },
       Except.ok { processed := true, paymentId := some "pay_7" }) := by
  have h := handleWebhook_payment_captured exDbPending
    { event := "payment.captured",
      payload := { payment := some { id := "pay_7", order_id := "order_1" } } }
    { id := "pay_7", order_id := "order_1" } (by decide) (by decide)
  have hp := h.1 exPayPending (by decide) (by decide)
  have h2 := handleWebhook_payment_captured { payments := [], users := [] }
    { event := "payment.captured",
      payload := { payment := some { id := "pay_7", order_id := "order_9" } } }
    { id := "pay_7", order_id := "order_9" } (by decide) (by decide)
  exact ⟨⟨hp.1, hp.2.1⟩, h2.2.2 (by decide)⟩

/-- C6: a successful createOrder persists exactly one new record, pending,
with the catalog amount of the requested plan, carrying the external order
id the gateway minted for this call, and that id occurs in no pre-existing
record. -/
theorem createOrder_success (ordersCreate : OrderOptions → Except String GatewayOrder)
    (keyId keySecret : String) (db db2 : DB) (userId planType ts : String)
    (res : OrderResult)
    (h : createOrder ordersCreate keyId keySecret db userId planType ts =
      (db2, Except.ok res)) :
    ∃ payment plan,
      plansLookup planType = some plan ∧
      db2.payments = db.payments ++ [payment] ∧
      payment.status = PaymentStatus.pending ∧
      payment.amount = plan.amount ∧
      payment.razorpayOrderId = res.orderId ∧
      (∀ q ∈ db.payments, q.razorpayOrderId ≠ payment.razorpayOrderId) ∧
      ∃ opts gwo, ordersCreate opts = Except.ok gwo ∧
        payment.razorpayOrderId = gwo.id := by
  unfold createOrder at h
  split at h
  · simp at h
  · split at h
    · simp at h
    · rename_i plan hplan
      split at h
      · simp at h
      · rename_i user huser
        split at h
        · simp at h
        · simp only [] at h
          split at h
          · simp at h
          · rename_i razorpayOrder hgw
            split at h
            · simp at h
            · rename_i db2x hins
              unfold insertPayment at hins
              split at hins
              · simp at hins
              · rename_i hany
                injection hins with hins2
                injection h with hdb hres
                injection hres with hres2
                refine ⟨{ userId := userId, razorpayOrderId := razorpayOrder.id,
                          razorpayPaymentId := none, razorpaySignature := none,
                          amount := plan.amount, currency := plan.currency,
                          status := PaymentStatus.pending, planType := planType,
                          description := plan.description,
                          notes := [("userId", userId), ("planType", planType),
                                    ("userEmail", user.email),
                                    ("userName", (user.firstName ++ " " ++ user.lastName).trim)],
                          failureReason := none, webhookEventId := none },
                        plan, hplan, ?_, rfl, rfl, ?_, ?_, ?_⟩
                · rw [← hdb, ← hins2]
                · rw [← hres2]
                · intro q hq
                  have hall := List.any_eq_false.mp (Bool.not_eq_true _ ▸ hany) q hq
                  simpa using hall
                · exact ⟨_, razorpayOrder, hgw, rfl⟩

/-- Gateway double for concrete runs: mints the fixed id order_new and
echoes amount and currency. -/
def exGateway : OrderOptions → Except String GatewayOrder :=
  fun opts => Except.ok { id := "order_new", amount := opts.amount, currency := opts.currency }

def exDbNoOrders : DB := { payments := [], users := [exUser1] }

def exOrderRes : OrderResult :=
  { orderId := "order_new", amount := 99900, currency := "INR",
    planType := "premium_monthly", description := "Premium Monthly Subscription",
    keyId := "kid", userName := "Ada L", userEmail := "ada@x.com" }

/-- Witness for C6 at a concrete eligible user and plan. -/
theorem createOrder_success_witness :
    ∃ payment plan,
      plansLookup "premium_monthly" = some plan ∧
      (createOrder exGateway "kid" "ksec" exDbNoOrders "u1" "premium_monthly" "ts0").1.payments =
        exDbNoOrders.payments ++ [payment] ∧
      payment.status = PaymentStatus.pending ∧
      payment.amount = plan.amount ∧
      payment.razorpayOrderId = exOrderRes.orderId ∧
      (∀ q ∈ exDbNoOrders.payments, q.razorpayOrderId ≠ payment.razorpayOrderId) ∧
      ∃ opts gwo, exGateway opts = Except.ok gwo ∧
        payment.razorpayOrderId = gwo.id :=
  createOrder_success exGateway "kid" "ksec" exDbNoOrders
    (createOrder exGateway "kid" "ksec" exDbNoOrders "u1" "premium_monthly" "ts0").1
    "u1" "premium_monthly" "ts0" exOrderRes (by rfl)

def exDbPremium : DB := { payments := [], users := [exUserPremium] }

/-- Counterexample for C7 as stated: the claim quantifies over every plan
id, but for an already-premium user and an unknown plan id createOrder
fails with the invalid-plan error, not the already-premium one (the plan
check precedes the premium check). -/
theorem createOrder_already_premium_counterexample :
    (findUser exDbPremium.users "u2" = some exUserPremium ∧
     exUserPremium.isPremium = true) ∧
    (createOrder exGateway "kid" "ksec" exDbPremium "u2" "not_a_plan" "ts0").2 =
      Except.error "Failed to create order: Invalid plan type" ∧
    (createOrder exGateway "kid" "ksec" exDbPremium "u2" "not_a_plan" "ts0").2 ≠
      Except.error "Failed to create order: User is already premium" := by
  refine ⟨⟨rfl, rfl⟩, rfl, ?_⟩
  intro hcontra
  have h1 : (createOrder exGateway "kid" "ksec" exDbPremium "u2" "not_a_plan" "ts0").2 =
      Except.error "Failed to create order: Invalid plan type" := rfl
  rw [h1] at hcontra
  have h2 := Except.error.inj hcontra
  exact absurd h2 (by decide)

/-- C7 amended: with gateway credentials configured, for every plan id that
resolves in the catalog and every already-premium user, createOrder fails
with the already-premium error and the store is returned unchanged: no
record is created. -/
theorem createOrder_already_premium
    (ordersCreate : OrderOptions → Except String GatewayOrder)
    (keyId keySecret : String) (db : DB) (userId planType ts : String)
    (plan : Plan) (u : User)
    (hk : keyId ≠ "") (hs : keySecret ≠ "")
    (hplan : plansLookup planType = some plan)
    (hu : findUser db.users userId = some u) (hprem : u.isPremium = true) :
    createOrder ordersCreate keyId keySecret db userId planType ts =
      (db, Except.error "Failed to create order: User is already premium") := by
  have hcond : (keyId == "" || keySecret == "") = false := by
    simp [hk, hs]
  unfold createOrder
  simp [hcond, hplan, hu, hprem]

/-- Witness for the amended C7 at a concrete premium user and valid plan. -/
theorem createOrder_already_premium_witness :
    createOrder exGateway "kid" "ksec" exDbPremium "u2" "premium_monthly" "ts0" =
      (exDbPremium, Except.error "Failed to create order: User is already premium") :=
  createOrder_already_premium exGateway "kid" "ksec" exDbPremium "u2"
    "premium_monthly" "ts0"
    { amount := 99900, currency := "INR",
      description := "Premium Monthly Subscription", duration := 30 }
    exUserPremium (by decide) (by decide) (by decide) (by decide) rfl

/-- Counterexample for C1 as stated: a record already in the terminal
status failed is transitioned to completed by a correct-signature
verifyPayment call. -/
theorem terminal_sticky_counterexample :
    (findPayment exDbFailed "order_1").map Payment.status =
      some PaymentStatus.failed ∧
    verifySignature exHmac "sec" "order_1" "pay_1"
      (exHmac "sec" ("order_1" ++ "|" ++ "pay_1")) = true ∧
    statusOf (verifyPayment exHmac "sec" exDbFailed "order_1" "pay_1"
      (exHmac "sec" ("order_1" ++ "|" ++ "pay_1"))).1 "order_1" =
      some PaymentStatus.completed := by decide

/-- Characterization of the invalid-signature branch of `verifyPayment`. -/
theorem verifyPayment_invalid_eq (hmac : String → String → String)
    (keySecret : String) (db : DB) (o p s : String) (payment : Payment)
    (hfind : findPayment db o = some payment)
    (hsig : verifySignature hmac keySecret o p s = false) :
    verifyPayment hmac keySecret db o p s =
      (savePayment db (markFailed payment "Invalid payment signature"),
       Except.error "Payment verification failed: Payment verification failed") := by
  unfold verifyPayment
  rw [hfind]
  simp [hsig]

/-- `handlePaymentFailedWebhook` away from a pending record acknowledges
without mutating. -/
theorem handlePaymentFailedWebhook_skip_eq (db : DB) (e : PaymentEntity)
    (payment : Payment)
    (hfind : findPayment db e.order_id = some payment)
    (hnp : payment.status ≠ PaymentStatus.pending) :
    handlePaymentFailedWebhook db e =
      (db, Except.ok { processed := true, paymentId := some e.id }) := by
  have hc : (payment.status == PaymentStatus.pending) = false := by
    simpa using hnp
  unfold handlePaymentFailedWebhook
  rw [hfind]
  simp [hc]

/-- `handleOrderPaid` never changes the status of the matching record. -/
theorem handleOrderPaid_status (db : DB) (e : OrderEntity) (payment : Payment)
    (hfind : findPayment db e.id = some payment) :
    statusOf (handleOrderPaid db e).1 e.id = some payment.status := by
  have hkey : payment.razorpayOrderId = e.id := findPayment_key hfind
  have hkey2 : ({ payment with webhookEventId := some e.id } : Payment).razorpayOrderId
      = e.id := hkey
  unfold handleOrderPaid
  rw [hfind]
  unfold statusOf
  have hf2 : findPayment (savePayment db { payment with webhookEventId := some e.id })
      e.id = some { payment with webhookEventId := some e.id } :=
    findPayment_savePayment hfind hkey2
  simp only [hf2]
  rfl

/-- Bridge: with duplicate-free order ids, any stored record carrying the
searched order id is the record the search returned. -/
theorem findPayment_unique {db : DB} {o : String} {payment : Payment}
    (hnd : (db.payments.map Payment.razorpayOrderId).Nodup)
    (hfind : findPayment db o = some payment) :
    ∀ q ∈ db.payments, q.razorpayOrderId = o → q = payment := by
  have h2 := hfind
  unfold findPayment at h2
  exact find_unique_match (fun p : Payment => p.razorpayOrderId)
    db.payments o payment hnd h2

/-- `cancelPayment` on an order id whose (unique) record is not pending
fails without mutating: the query itself excludes non-pending records. -/
theorem cancelPayment_skip (db : DB) (o uid : String) (payment : Payment)
    (huniq : (db.payments.map Payment.razorpayOrderId).Nodup)
    (hfind : findPayment db o = some payment)
    (hnp : payment.status ≠ PaymentStatus.pending) :
    cancelPayment db o uid =
      (db, Except.error "Failed to cancel payment: Pending payment not found") := by
  unfold cancelPayment
  have hnone : db.payments.find?
      (fun p => p.razorpayOrderId == o && p.userId == uid
        && p.status == PaymentStatus.pending) = none := by
    apply List.find?_eq_none.mpr
    intro q hq hcontra
    simp only [Bool.and_eq_true, beq_iff_eq] at hcontra
    have hqeq : q = payment := findPayment_unique huniq hfind q hq hcontra.1.1
    exact hnp (hqeq ▸ hcontra.2)
  rw [hnone]

/-- C1 corrected: terminal states are sticky for cancelPayment and for the
webhook reconciliation handlers (payment.captured and payment.failed skip
non-pending records; order.paid never touches status), but not for
verifyPayment or handlePaymentFailure: on a record in a terminal status, a
correct-signature verifyPayment still rewrites it to completed, an
invalid-signature verifyPayment rewrites it to failed, and
handlePaymentFailure rewrites it to failed, because neither of those paths
guards on the current status. -/
theorem terminal_stickiness (hmac : String → String → String) (keySecret : String)
    (db : DB) (o : String) (payment : Payment)
    (huniq : (db.payments.map Payment.razorpayOrderId).Nodup)
    (hfind : findPayment db o = some payment)
    (hterm : payment.status ≠ PaymentStatus.pending) :
    (∀ ev e, ev.event = "payment.captured" → ev.payload.payment = some e →
      e.order_id = o →
      handleWebhook db ev =
        (db, Except.ok { processed := true, paymentId := some e.id })) ∧
    (∀ ev e, ev.event = "payment.failed" → ev.payload.payment = some e →
      e.order_id = o →
      handleWebhook db ev =
        (db, Except.ok { processed := true, paymentId := some e.id })) ∧
    (∀ ev e, ev.event = "order.paid" → ev.payload.order = some e → e.id = o →
      statusOf (handleWebhook db ev).1 o = some payment.status) ∧
    (∀ uid, cancelPayment db o uid =
      (db, Except.error "Failed to cancel payment: Pending payment not found")) ∧
    (∀ pid sig, verifySignature hmac keySecret o pid sig = true →
      statusOf (verifyPayment hmac keySecret db o pid sig).1 o =
        some PaymentStatus.completed) ∧
    (∀ pid sig, verifySignature hmac keySecret o pid sig = false →
      statusOf (verifyPayment hmac keySecret db o pid sig).1 o =
        some PaymentStatus.failed) ∧
    (∀ reason, statusOf (handlePaymentFailure db o reason).1 o =
      some PaymentStatus.failed) := by
  have hkey : payment.razorpayOrderId = o := findPayment_key hfind
  refine ⟨?_, ?_, ?_, ?_, ?_, ?_, ?_⟩
  · intro ev e hev hpl he
    rw [handleWebhook_captured_eq db ev e hev hpl]
    exact (handlePaymentCaptured_skip_eq db e).1 payment (he ▸ hfind) hterm
  · intro ev e hev hpl he
    rw [handleWebhook_failed_eq db ev e hev hpl]
    exact handlePaymentFailedWebhook_skip_eq db e payment (he ▸ hfind) hterm
  · intro ev e hev hpl he
    rw [handleWebhook_orderPaid_eq db ev e hev hpl]
    have := handleOrderPaid_status db e payment (he ▸ hfind)
    rw [he] at this
    exact this
  · intro uid
    exact cancelPayment_skip db o uid payment huniq hfind hterm
  · intro pid sig hsig
    have heq := verifyPayment_success_eq hmac keySecret db o pid sig payment hfind hsig
    have hkey2 : (markCompleted payment pid (some sig)).razorpayOrderId = o := hkey
    rw [heq]
    unfold statusOf
    cases hu : findUser db.users payment.userId with
    | none =>
      simp only [hu]
      rw [findPayment_savePayment hfind hkey2]
      rfl
    | some user =>
      simp only [hu]
      have hf2 : findPayment (savePayment db (markCompleted payment pid (some sig))) o =
          some (markCompleted payment pid (some sig)) :=
        findPayment_savePayment hfind hkey2
      have hf3 : findPayment
          { savePayment db (markCompleted payment pid (some sig)) with
            users := saveUser db.users { user with isPremium := true } } o =
          some (markCompleted payment pid (some sig)) := hf2
      rw [hf3]
      rfl
  · intro pid sig hsig
    have heq := verifyPayment_invalid_eq hmac keySecret db o pid sig payment hfind hsig
    have hkey2 : (markFailed payment "Invalid payment signature").razorpayOrderId = o := hkey
    rw [heq]
    unfold statusOf
    rw [findPayment_savePayment hfind hkey2]
    rfl
  · intro reason
    have hkey2 : (markFailed payment reason).razorpayOrderId = o := hkey
    unfold handlePaymentFailure
    rw [hfind]
    unfold statusOf
    have hf2 : findPayment (savePayment db (markFailed payment reason)) o =
        some (markFailed payment reason) :=
      findPayment_savePayment hfind hkey2
    simp only [hf2]
    rfl

/-- Witness for the corrected C1: the cancel path on a concrete completed
record refuses with the pending-not-found error and mutates nothing. -/
theorem terminal_stickiness_witness :
    cancelPayment exDbCompleted "order_1" "u1" =
      (exDbCompleted, Except.error "Failed to cancel payment: Pending payment not found") :=
  ((terminal_stickiness exHmac "sec" exDbCompleted "order_1" exPayCompleted
      (by decide) (by decide) (by decide)).2.2.2.1) "u1"


/-- Inversion: a successful verifyPayment call found a record by the order
id and the signature checked out. -/
theorem verifyPayment_ok_inv (hmac : String → String → String) (keySecret : String)
    (db db1 : DB) (o p s : String) (r1 : VerifyResult)
    (h : verifyPayment hmac keySecret db o p s = (db1, Except.ok r1)) :
    ∃ payment, findPayment db o = some payment ∧
      verifySignature hmac keySecret o p s = true := by
  unfold verifyPayment at h
  split at h
  · simp at h
  · rename_i payment hfind
    split at h
    · rename_i hsig
      exact ⟨payment, hfind, hsig⟩
    · simp at h

/-- The valid-signature branch of `verifyPayment` when the owning user is
present. -/
theorem verifyPayment_success_eq_user (hmac : String → String → String)
    (keySecret : String) (db : DB) (o p s : String) (payment : Payment)
    (user : User)
    (hfind : findPayment db o = some payment)
    (hsig : verifySignature hmac keySecret o p s = true)
    (hu : findUser db.users payment.userId = some user) :
    verifyPayment hmac keySecret db o p s =
      ({ savePayment db (markCompleted payment p (some s)) with
         users := saveUser db.users { user with isPremium := true } },
       Except.ok { success := true, paymentId := p, orderId := o,
                   planType := payment.planType, amount := payment.amount,
                   currency := payment.currency }) := by
  unfold verifyPayment
  rw [hfind]
  simp [hsig, hu, savePayment, markCompleted]

/-- The valid-signature branch of `verifyPayment` when the owning user is
absent. -/
theorem verifyPayment_success_eq_nouser (hmac : String → String → String)
    (keySecret : String) (db : DB) (o p s : String) (payment : Payment)
    (hfind : findPayment db o = some payment)
    (hsig : verifySignature hmac keySecret o p s = true)
    (hu : findUser db.users payment.userId = none) :
    verifyPayment hmac keySecret db o p s =
      (savePayment db (markCompleted payment p (some s)),
       Except.ok { success := true, paymentId := p, orderId := o,
                   planType := payment.planType, amount := payment.amount,
                   currency := payment.currency }) := by
  unfold verifyPayment
  rw [hfind]
  simp [hsig, hu, savePayment, markCompleted]

/-- C8: verifyPayment is idempotent on the success path: repeating a
successful call with the same order id, payment id and signature leaves
the store exactly as it was after the first call and returns the same
success result (in particular the repeated premium-flag write surfaces no
error). -/
theorem verifyPayment_idempotent (hmac : String → String → String) (keySecret : String)
    (db db1 : DB) (o p s : String) (r1 : VerifyResult)
    (hpnd : (db.payments.map Payment.razorpayOrderId).Nodup)
    (hund : (db.users.map User.id).Nodup)
    (h : verifyPayment hmac keySecret db o p s = (db1, Except.ok r1)) :
    verifyPayment hmac keySecret db1 o p s = (db1, Except.ok r1) := by
  obtain ⟨payment, hfind, hsig⟩ := verifyPayment_ok_inv hmac keySecret db db1 o p s r1 h
  have hkey : payment.razorpayOrderId = o := findPayment_key hfind
  have hkeym : (markCompleted payment p (some s)).razorpayOrderId = o := hkey
  cases hu : findUser db.users payment.userId with
  | none =>
    have heq := verifyPayment_success_eq_nouser hmac keySecret db o p s payment
      hfind hsig hu
    rw [h] at heq
    injection heq with hdb hres
    injection hres with hres2
    have hfind1 : findPayment db1 o = some (markCompleted payment p (some s)) := by
      rw [hdb]
      exact findPayment_savePayment hfind hkeym
    have hu1 : findUser db1.users (markCompleted payment p (some s)).userId = none := by
      rw [hdb]; exact hu
    have heq2 := verifyPayment_success_eq_nouser hmac keySecret db1 o p s
      (markCompleted payment p (some s)) hfind1 hsig hu1
    have hmm : markCompleted (markCompleted payment p (some s)) p (some s) =
        markCompleted payment p (some s) := rfl
    rw [hmm] at heq2
    have hnd1 : (db1.payments.map Payment.razorpayOrderId).Nodup := by
      rw [hdb, savePayment_keys]; exact hpnd
    have hsave : savePayment db1 (markCompleted payment p (some s)) = db1 :=
      savePayment_self hnd1 (by rw [hkeym]; exact hfind1)
    rw [hsave] at heq2
    rw [heq2, hres2]
    rfl
  | some user =>
    have hy0 : user.id = payment.userId := findUser_key hu
    have hy : ({ user with isPremium := true } : User).id = payment.userId := hy0
    have heq := verifyPayment_success_eq_user hmac keySecret db o p s payment
      user hfind hsig hu
    rw [h] at heq
    injection heq with hdb hres
    injection hres with hres2
    have hfind1 : findPayment db1 o = some (markCompleted payment p (some s)) := by
      rw [hdb]
      exact findPayment_savePayment hfind hkeym
    have hu1 : findUser db1.users (markCompleted payment p (some s)).userId =
        some { user with isPremium := true } := by
      rw [hdb]
      exact findUser_saveUser (x := user) hu hy
    have heq2 := verifyPayment_success_eq_user hmac keySecret db1 o p s _ _
      hfind1 hsig hu1
    have hmm : markCompleted (markCompleted payment p (some s)) p (some s) =
        markCompleted payment p (some s) := rfl
    rw [hmm] at heq2
    have huu : ({ { user with isPremium := true } with isPremium := true } : User) =
        { user with isPremium := true } := rfl
    rw [huu] at heq2
    have hnd1 : (db1.payments.map Payment.razorpayOrderId).Nodup := by
      rw [hdb]
      have hp : (({ savePayment db (markCompleted payment p (some s)) with
          users := saveUser db.users { user with isPremium := true } } : DB).payments).map
          Payment.razorpayOrderId = db.payments.map Payment.razorpayOrderId :=
        savePayment_keys db (markCompleted payment p (some s))
      rw [hp]; exact hpnd
    have hsave : savePayment db1 (markCompleted payment p (some s)) = db1 :=
      savePayment_self hnd1 (by rw [hkeym]; exact hfind1)
    rw [hsave] at heq2
    have hund1 : (db1.users.map User.id).Nodup := by
      rw [hdb]
      have hq : (({ savePayment db (markCompleted payment p (some s)) with
          users := saveUser db.users { user with isPremium := true } } : DB).users).map
          User.id = db.users.map User.id :=
        saveUser_keys db.users { user with isPremium := true }
      rw [hq]; exact hund
    have hy2 : ({ user with isPremium := true } : User).id =
        (markCompleted payment p (some s)).userId := hy0
    have hfu := hu1
    rw [← hy2] at hfu
    have husave : saveUser db1.users { user with isPremium := true } = db1.users :=
      saveUser_self hund1 hfu
    rw [husave] at heq2
    have hdbeta : ({ db1 with users := db1.users } : DB) = db1 := rfl
    rw [hdbeta] at heq2
    rw [heq2, hres2]
    rfl

/-- Witness for C8 at the concrete pending store: the second identical call
is a no-op returning the same success result. -/
theorem verifyPayment_idempotent_witness :
    verifyPayment exHmac "sec"
      (verifyPayment exHmac "sec" exDbPending "order_1" "pay_1"
        (exHmac "sec" ("order_1" ++ "|" ++ "pay_1"))).1
      "order_1" "pay_1" (exHmac "sec" ("order_1" ++ "|" ++ "pay_1")) =
      ((verifyPayment exHmac "sec" exDbPending "order_1" "pay_1"
        (exHmac "sec" ("order_1" ++ "|" ++ "pay_1"))).1,
       Except.ok { success := true, paymentId := "pay_1", orderId := "order_1",
                   planType := "premium_monthly", amount := 99900,
                   currency := "INR" }) :=
  verifyPayment_idempotent exHmac "sec" exDbPending _ "order_1" "pay_1"
    (exHmac "sec" ("order_1" ++ "|" ++ "pay_1"))
    { success := true, paymentId := "pay_1", orderId := "order_1",
      planType := "premium_monthly", amount := 99900, currency := "INR" }
    (by decide) (by decide) (by rfl)
